import Mathlib

set_option maxRecDepth 8192

/-!
Shallow embedding of the canvas-lms-tools "canvas-sms-web" service layer.

The embedding translates the TypeScript sources into executable Lean
definitions:

* `FormattingService` (src/canvas-sms-web/src/services/formatting.service.ts):
  `formatMessage`, `getCourseMap`, `formatDateYYYYMMDD`, `formatPreview`,
  `countSmsSegments`, `validateMessage`.
* `CanvasService.sortByDueDate` (canvas.service.ts).
* `SchedulerService.scheduleDailySmsForPair` / `buildCronExpression`
  (scheduler.service.ts), with the Bull queue modelled as a keyed job list.
* the worker pipeline `processSmsJob` (src/canvas-sms-web/src/worker.ts)
  together with `MessageService.logMessage` (message.service.ts), with the
  external Canvas fetch and Twilio send calls supplied as per-attempt
  behaviours, and Bull's `attempts: 3` retry loop made explicit.

Database tables (Prisma `course`, `parent`, `child`, `preference`, `message`)
are passed as explicit list-valued state; `await` points are modelled as
ordinary sequential evaluation.  JavaScript numbers are modelled as `Nat`/`Int`
(all quantities involved are integral and far below 2^53, where IEEE
arithmetic is exact).
-/

/- ===================== Formatting service ===================== -/

/-- A calendar date, as produced by `getFullYear` / `getMonth()+1` /
`getDate` on a JS `Date`. -/
structure SimpleDate where
  year : Nat
  month : Nat
  day : Nat
deriving DecidableEq, Repr

/-- `String(n).padStart(2, ZERO)`: JS pads the decimal rendering of `n` on the
left with a zero when it is a single digit, and leaves it unchanged
otherwise. -/
def pad2 (n : Nat) : String :=
  if n < 10 then "0" ++ toString n else toString n

/-- `FormattingService.formatDateYYYYMMDD` (formatting.service.ts lines
88-93). -/
def formatDateYYYYMMDD (date : SimpleDate) : String :=
  toString date.year ++ "-" ++ pad2 date.month ++ "-" ++ pad2 date.day

/-- One row of the Prisma `course` table (the per-child synced course-name
mapping written by `CanvasService.syncCourses`). -/
structure Course where
  childId : String
  canvasCourseId : String
  courseName : String
  isActive : Bool
deriving DecidableEq, Repr

/-- `FormattingService.getCourseMap` (formatting.service.ts lines 66-81):
`prisma.course.findMany` filtered on `childId` and `isActive`, then the loop
`courseMap[course.canvasCourseId] = course.courseName` building a record.  The
record is represented as the association list of writes, in write order. -/
def getCourseMap (courses : List Course) (childId : String) :
    List (String × String) :=
  (courses.filter (fun c => c.childId == childId && c.isActive)).map
    (fun c => (c.canvasCourseId, c.courseName))

/-- Lookup in a JS-object-as-association-list: the last write to a key wins;
a key never written reads as `undefined` (`none`). -/
def mapLookup (m : List (String × String)) (k : String) : Option String :=
  (m.reverse.find? (fun p => p.1 == k)).map (fun p => p.2)

/-- A parsed Canvas TODO item (`ParsedTodoItem` in canvas.types.ts).  The
`dueAt` ISO-8601 string is modelled by its parsed epoch instant
`new Date(dueAt).getTime()`, which is the only way the code consumes it. -/
structure ParsedTodoItem where
  type : String
  assignmentName : String
  dueAt : Int
  dueDate : String
  courseId : String
deriving DecidableEq, Repr

/-- The expression `courseMap[todo.courseId] || Course-space-id`
(formatting.service.ts line 42): a JS `||` falls back both when the key is
absent (`undefined`) and when the stored name is the empty string (falsy). -/
def courseNameOrFallback (courseMap : List (String × String))
    (courseId : String) : String :=
  match mapLookup courseMap courseId with
  | some name => if name == "" then "Course " ++ courseId else name
  | none => "Course " ++ courseId

/-- The four-line block plus blank line emitted for one item
(formatting.service.ts lines 45-49). -/
def todoBlock (courseMap : List (String × String)) (todo : ParsedTodoItem) :
    String :=
  "Course: " ++ courseNameOrFallback courseMap todo.courseId ++ "\n" ++
  "Assignment: " ++ todo.assignmentName ++ "\n" ++
  "Type: " ++ todo.type ++ "\n" ++
  "Due: " ++ todo.dueDate ++ "\n" ++
  "\n"

/-- `FormattingService.formatMessage` (formatting.service.ts lines 18-58).
The Prisma-backed course table is passed explicitly as `courses`; the source
obtains it with `await this.getCourseMap(childId)`. -/
def formatMessage (courses : List Course) (childId : String)
    (todos : List ParsedTodoItem) (currentDate : SimpleDate) : String :=
  let header := "Assignments for " ++ formatDateYYYYMMDD currentDate ++ ":\n\n"
  if todos.length == 0 then
    header ++ "No assignments due.\n"
  else
    let courseMap := getCourseMap courses childId
    header ++ String.join (todos.map (todoBlock courseMap))

/-- `FormattingService.formatPreview` (formatting.service.ts lines 101-106).
`message.substring(0, maxLength - 3)` takes the first `maxLength - 3`
characters; JS clamps a negative bound to 0, exactly as `Nat` subtraction
does. -/
def formatPreview (message : String) (maxLength : Nat) : String :=
  if message.length ≤ maxLength then
    message
  else
    String.mk (message.data.take (maxLength - 3)) ++ "..."

/-- The regex test `[^\x00-\x7F]` (formatting.service.ts line 116): does any
character lie outside the 7-bit range? -/
def hasUnicodeChar (message : String) : Bool :=
  message.data.any (fun c => 127 < c.toNat)

/-- `FormattingService.countSmsSegments` (formatting.service.ts lines
114-126).  `Math.ceil (L / k)` on the integral operands in range is
`(L + k - 1) / k` in `Nat`. -/
def countSmsSegments (message : String) : Nat :=
  let hasUnicode := hasUnicodeChar message
  let segmentLength := if hasUnicode then 70 else 160
  if message.length ≤ segmentLength then
    1
  else
    let multiPartSegmentLength := if hasUnicode then 67 else 153
    (message.length + multiPartSegmentLength - 1) / multiPartSegmentLength

/-- The character set removed by JS `String.prototype.trim`: WhiteSpace and
LineTerminator code points. -/
def isJsWhitespace (c : Char) : Bool :=
  let n := c.toNat
  n == 0x09 || n == 0x0A || n == 0x0B || n == 0x0C || n == 0x0D ||
  n == 0x20 || n == 0xA0 || n == 0x1680 ||
  (0x2000 ≤ n && n ≤ 0x200A) ||
  n == 0x2028 || n == 0x2029 || n == 0x202F || n == 0x205F ||
  n == 0x3000 || n == 0xFEFF

/-- JS `message.trim()`: strip leading and trailing whitespace. -/
def trimString (s : String) : String :=
  String.mk
    (((s.data.dropWhile isJsWhitespace).reverse.dropWhile
      isJsWhitespace).reverse)

/-- The result object of `validateMessage`. -/
structure ValidationResult where
  valid : Bool
  segments : Nat
  errors : List String
deriving DecidableEq, Repr

/-- `FormattingService.validateMessage` (formatting.service.ts lines 134-155):
push an error when the trimmed message is empty, push an error when the
segment count exceeds `maxSegments`, and report `valid` iff no error was
pushed. -/
def validateMessage (message : String) (maxSegments : Nat) : ValidationResult :=
  let segments := countSmsSegments message
  let errors :=
    (if (trimString message).length == 0 then
      ["Message cannot be empty"] else []) ++
    (if maxSegments < segments then
      ["Message exceeds maximum of " ++ toString maxSegments ++
        " SMS segments (currently " ++ toString segments ++ ")"] else [])
  ⟨errors.length == 0, segments, errors⟩

example : countSmsSegments "" = 1 := by decide
example : pad2 2 = "02" := by decide
example : formatDateYYYYMMDD ⟨2026, 2, 18⟩ = "2026-02-18" := by decide

/- ===================== Canvas service: sorting ===================== -/

/-- The comparator of `CanvasService.sortByDueDate` (canvas.service.ts lines
106-112): `new Date(a.dueAt).getTime() - new Date(b.dueAt).getTime()`.  An
element sorts no later than another exactly when the comparator is ≤ 0. -/
def dueDateLe (a b : ParsedTodoItem) : Bool :=
  decide (a.dueAt ≤ b.dueAt)

/-- `CanvasService.sortByDueDate`: `Array.prototype.sort` with the above
comparator.  JS `sort` is a stable sort (ECMA-262, and V8's TimSort), so it is
modelled by the stable `List.mergeSort`. -/
def sortByDueDate (items : List ParsedTodoItem) : List ParsedTodoItem :=
  items.mergeSort dueDateLe

/- ===================== Scheduler service ===================== -/

/-- One row of the Prisma `preference` table, as consumed by the scheduler
and the worker. -/
structure Preference where
  parentId : String
  sendTime : String
  sendDays : String
  includeChildInSms : Bool
deriving DecidableEq, Repr

/-- One row of the Prisma `parent` table (fields consumed by the embedded
code only), with its to-one `preferences` relation inlined. -/
structure Parent where
  id : String
  phoneNumber : Option String
  timezone : String
  preferences : Option Preference
deriving DecidableEq, Repr

/-- The scheduler's day-name table (scheduler.service.ts lines 407-415);
`dayMap[d]` for an unknown name is JS `undefined`, i.e. `none`. -/
def dayMap (d : String) : Option Nat :=
  if d == "Sun" then some 0
  else if d == "Mon" then some 1
  else if d == "Tue" then some 2
  else if d == "Wed" then some 3
  else if d == "Thu" then some 4
  else if d == "Fri" then some 5
  else if d == "Sat" then some 6
  else none

/-- Rendering of a JS value in a template literal: `undefined` prints as the
string `undefined`. -/
def optToStringJS : Option String → String
  | some s => s
  | none => "undefined"

/-- Rendering of a `number | undefined` inside `Array.prototype.join`:
`undefined` joins as the empty string. -/
def optNatJoinJS : Option Nat → String
  | some n => toString n
  | none => ""

/-- JS `String.prototype.split` with a one-character separator: cut at every
occurrence; an empty input yields `[""]`. -/
def splitOnCharAux (sep : Char) : List Char → List Char → List (List Char)
  | [], acc => [acc.reverse]
  | c :: cs, acc =>
    if c == sep then acc.reverse :: splitOnCharAux sep cs []
    else splitOnCharAux sep cs (c :: acc)

/-- JS `s.split(sep)` for a single-character `sep`. -/
def splitOnChar (sep : Char) (s : String) : List String :=
  (splitOnCharAux sep s.data []).map String.mk

/-- `SchedulerService.buildCronExpression` (scheduler.service.ts): split
`sendTime` on a colon into `[hours, minutes]`, map the comma-separated
`sendDays` through `dayMap` (trimming each), collapse Mon-Fri to `1-5`, and
interpolate `minutes hours * * dayRange`.  The `timezone` argument is unused
in the expression itself (it is passed separately to Bull as `tz`). -/
def buildCronExpression (sendTime sendDays : String) (timezone : String) :
    String :=
  let parts := splitOnChar ':' sendTime
  let hours := parts.get? 0
  let minutes := parts.get? 1
  let days := (splitOnChar ',' sendDays).map (fun d => dayMap (trimString d))
  let dayRange :=
    if days.length == 5 &&
        days.enum.all (fun p => p.2 == some (p.1 + 1)) then
      "1-5"
    else
      String.intercalate "," (days.map optNatJoinJS)
  let tzUnused := timezone
  let _ := tzUnused
  optToStringJS minutes ++ " " ++ optToStringJS hours ++ " * * " ++ dayRange

/-- One job in the Bull queue, as installed by `scheduleDailySmsForPair`. -/
structure QueueJob where
  jobId : String
  jobName : String
  parentId : String
  childId : String
  cron : String
  tz : String
deriving DecidableEq, Repr

/-- The Bull queue, modelled as the list of installed jobs keyed by
`jobId`. -/
structure QueueState where
  jobs : List QueueJob
deriving DecidableEq, Repr

/-- `queue.getJob(jobId)`. -/
def getJob (q : QueueState) (jobId : String) : Option QueueJob :=
  q.jobs.find? (fun j => j.jobId == jobId)

/-- `job.remove()` on the job found under `jobId`. -/
def removeJob (q : QueueState) (jobId : String) : QueueState :=
  ⟨q.jobs.filter (fun j => !(j.jobId == jobId))⟩

/-- `queue.add(name, data, opts)` installing a job under its `jobId`. -/
def addJob (q : QueueState) (j : QueueJob) : QueueState :=
  ⟨q.jobs ++ [j]⟩

/-- The deterministic trigger key `sms-parentId-childId`
(scheduler.service.ts). -/
def smsJobId (parentId childId : String) : String :=
  "sms-" ++ parentId ++ "-" ++ childId

/-- `SchedulerService.scheduleDailySmsForPair` (scheduler.service.ts lines
343-394): look up the parent and its preferences (throwing when either is
missing), build the cron expression, remove any existing job under the
deterministic key, then add the repeatable job under that key.  Returns the
new queue state or the thrown error. -/
def scheduleDailySmsForPair (parents : List Parent) (q : QueueState)
    (parentId childId : String) : Except String QueueState :=
  match parents.find? (fun p => p.id == parentId) with
  | none => .error "Parent or preferences not found"
  | some parent =>
    match parent.preferences with
    | none => .error "Parent or preferences not found"
    | some prefs =>
      let cron :=
        buildCronExpression prefs.sendTime prefs.sendDays parent.timezone
      let jobId := smsJobId parentId childId
      let q1 :=
        match getJob q jobId with
        | some _ => removeJob q jobId
        | none => q
      .ok (addJob q1 ⟨jobId, "send-sms", parentId, childId, cron,
        parent.timezone⟩)

/-- The number of installed triggers for one (owner, subject) pair. -/
def triggerCount (q : QueueState) (parentId childId : String) : Nat :=
  (q.jobs.filter (fun j => j.jobId == smsJobId parentId childId)).length

example :
    buildCronExpression "15:00:00" "Mon,Tue,Wed,Thu,Fri" "America/Chicago" =
      "00 15 * * 1-5" := by decide
example :
    buildCronExpression "07:30:00" "Sun,Sat" "UTC" = "30 07 * * 0,6" := by
  decide

/- ===================== Worker pipeline ===================== -/

/-- One row of the Prisma `child` table (fields consumed by the worker). -/
structure Child where
  id : String
  phoneNumber : Option String
deriving DecidableEq, Repr

/-- One row of the Prisma `message` table: an Occurrence record, as written by
`MessageService.logMessage` (message.service.ts lines 24-48). -/
structure MessageRecord where
  childId : String
  parentId : Option String
  messageBody : String
  recipientPhone : String
  recipientType : String
  twilioSid : Option String
  status : String
  assignmentCount : Nat
deriving DecidableEq, Repr

/-- `MessageService.logMessage`: `prisma.message.create` appends one row to
the message table. -/
def logMessage (store : List MessageRecord) (r : MessageRecord) :
    List MessageRecord :=
  store ++ [r]

/-- The typed failures of the external Canvas fetch
(`canvasService.fetchTodoItems`). -/
inductive FetchError
  | authError
  | networkError
  | rateLimitError
deriving DecidableEq, Repr

/-- The typed failures of the external Twilio send
(`twilioService.sendSms`). -/
inductive SendError
  | invalidAddress
  | networkError
  | providerError
deriving DecidableEq, Repr

/-- The outcomes the two external collaborators return during one attempt of
the job: the Canvas fetch result, and the Twilio result for the parent send
and for the child send (each consumed only if that call is reached). -/
structure AttemptBehavior where
  fetchResult : Except FetchError (List ParsedTodoItem)
  parentSendResult : Except SendError String
  childSendResult : Except SendError String
deriving Repr

/-- The database state the worker reads. -/
structure WorkerDb where
  parents : List Parent
  children : List Child
  preferences : List Preference
  courses : List Course
deriving DecidableEq, Repr

/-- The errors `processSmsJob` can rethrow. -/
inductive WorkerError
  | fetchFailed (e : FetchError)
  | invalidMessage (errors : List String)
  | parentOrChildNotFound
  | sendFailed (e : SendError)
deriving DecidableEq, Repr

/-- The object returned by a successful `processSmsJob` (worker.ts lines
103-108). -/
structure JobResult where
  success : Bool
  assignmentCount : Nat
  messageLength : Nat
  smsSegments : Nat
deriving DecidableEq, Repr

/-- The catch-block of `processSmsJob` (worker.ts lines 109-127): look the
parent up again and, when it has a phone number, log a `failed` record with
an empty body for the parent recipient (no `twilioSid`, `assignmentCount`
defaulting to 0). -/
def logFailure (db : WorkerDb) (parentId childId : String)
    (store : List MessageRecord) : List MessageRecord :=
  match db.parents.find? (fun p => p.id == parentId) with
  | some parent =>
    match parent.phoneNumber with
    | some phone =>
      logMessage store
        ⟨childId, some parentId, "", phone, "parent", none, "failed", 0⟩
    | none => store
  | none => store

/-- Steps 5 of `processSmsJob` (worker.ts lines 83-101): optionally send to
the child, log the outcome, and build the success result. -/
def sendToChildStep (db : WorkerDb) (beh : AttemptBehavior) (message : String)
    (count : Nat) (parentId childId : String) (child : Child)
    (preferences : Option Preference) (store : List MessageRecord) :
    List MessageRecord × Except WorkerError JobResult :=
  let okResult : JobResult :=
    ⟨true, count, message.length, (validateMessage message 5).segments⟩
  match child.phoneNumber with
  | some childPhone =>
    match preferences with
    | some prefs =>
      if prefs.includeChildInSms then
        match beh.childSendResult with
        | .error e =>
          (logFailure db parentId childId store, .error (.sendFailed e))
        | .ok childSid =>
          (logMessage store
            ⟨childId, some parentId, message, childPhone, "child",
              some childSid, "sent", count⟩,
            .ok okResult)
      else (store, .ok okResult)
    | none => (store, .ok okResult)
  | none => (store, .ok okResult)

/-- `processSmsJob` (worker.ts lines 26-131): fetch the Canvas TODO items,
format and validate the message, look up parent/child/preferences, send to
the parent (logging a `sent` record), optionally send to the child (logging a
`sent` record), and return the success object; any thrown error falls into
the catch-block (`logFailure`) and is rethrown so Bull retries. -/
def processSmsJob (db : WorkerDb) (beh : AttemptBehavior)
    (currentDate : SimpleDate) (parentId childId : String)
    (store : List MessageRecord) :
    List MessageRecord × Except WorkerError JobResult :=
  match beh.fetchResult with
  | .error e => (logFailure db parentId childId store, .error (.fetchFailed e))
  | .ok todos =>
    let message := formatMessage db.courses childId todos currentDate
    let validation := validateMessage message 5
    if !validation.valid then
      (logFailure db parentId childId store,
        .error (.invalidMessage validation.errors))
    else
      match db.parents.find? (fun p => p.id == parentId),
        db.children.find? (fun c => c.id == childId) with
      | some parent, some child =>
        let preferences :=
          db.preferences.find? (fun pr => pr.parentId == parentId)
        match parent.phoneNumber with
        | some phone =>
          match beh.parentSendResult with
          | .error e =>
            (logFailure db parentId childId store, .error (.sendFailed e))
          | .ok parentSid =>
            let store1 := logMessage store
              ⟨childId, some parentId, message, phone, "parent",
                some parentSid, "sent", todos.length⟩
            sendToChildStep db beh message todos.length parentId childId
              child preferences store1
        | none =>
          sendToChildStep db beh message todos.length parentId childId
            child preferences store
      | none, _ =>
        (logFailure db parentId childId store, .error .parentOrChildNotFound)
      | some _, none =>
        (logFailure db parentId childId store, .error .parentOrChildNotFound)

/-- Bull's retry loop over the job's `attempts` (scheduler.service.ts
`defaultJobOptions.attempts: 3`): run the attempts in order until one
succeeds, threading the message table through; returns the final table and
whether some attempt succeeded. -/
def runJobWithRetries (db : WorkerDb) (currentDate : SimpleDate)
    (parentId childId : String) :
    List AttemptBehavior → List MessageRecord → List MessageRecord × Bool
  | [], store => (store, false)
  | beh :: rest, store =>
    match processSmsJob db beh currentDate parentId childId store with
    | (store1, .ok _) => (store1, true)
    | (store1, .error _) =>
      runJobWithRetries db currentDate parentId childId rest store1

/-- The number of Occurrence records for a given recipient role and
status. -/
def countByType (store : List MessageRecord) (rtype status : String) : Nat :=
  (store.filter
    (fun r => r.recipientType == rtype && r.status == status)).length


/- ===================== Concrete fixtures ===================== -/

/-- `isOk` on an `Except`, used to state whether an attempt was rethrown. -/
def isOkB : Except ε α → Bool
  | .ok _ => true
  | .error _ => false

/-- A preference row: 3pm Mon-Fri, child included in the SMS. -/
def wPref : Preference := ⟨"p", "15:00:00", "Mon,Tue,Wed,Thu,Fri", true⟩

/-- A parent row with a phone number and the preference above. -/
def wParent : Parent := ⟨"p", some "+1111", "UTC", some wPref⟩

/-- A child row with a phone number. -/
def wChild : Child := ⟨"c", some "+2222"⟩

/-- A database with the parent-child pair above and no synced courses. -/
def wDb : WorkerDb := ⟨[wParent], [wChild], [wPref], []⟩

/-- A fixed reference date. -/
def wDate : SimpleDate := ⟨2026, 2, 18⟩

/-- Two due items with equal due instants whose titles are in reverse
lexicographic order. -/
def itemA : ParsedTodoItem := ⟨"submitting", "A", 100, "2026-02-18", "1"⟩

/-- See `itemA`. -/
def itemB : ParsedTodoItem := ⟨"submitting", "B", 100, "2026-02-18", "1"⟩

/-- A due item referencing course id 101. -/
def cItem : ParsedTodoItem := ⟨"submitting", "Essay", 0, "2026-02-25", "101"⟩

/- ===================== Theorems ===================== -/

/-- The comparator relation is transitive. -/
theorem dueDateLe_trans : ∀ (a b c : ParsedTodoItem),
    dueDateLe a b → dueDateLe b c → dueDateLe a c := by
  intro a b c hab hbc
  simp only [dueDateLe, decide_eq_true_eq] at *
  omega

/-- The comparator relation is total. -/
theorem dueDateLe_total : ∀ (a b : ParsedTodoItem),
    dueDateLe a b || dueDateLe b a := by
  intro a b
  simp only [dueDateLe, Bool.or_eq_true, decide_eq_true_eq]
  omega

/-- Claim C6, counterexample: `sortByDueDate` breaks due-instant ties by
input position, not by title.  With two items of equal due instant and titles
B, A (in that input order) the output keeps B before A, whereas the claim
demands A before B; moreover the two input orders of the same multiset give
different output sequences. -/
theorem sortByDueDate_counterexample :
    sortByDueDate [itemB, itemA] = [itemB, itemA] ∧
    sortByDueDate [itemB, itemA] ≠ [itemA, itemB] ∧
    sortByDueDate [itemA, itemB] = [itemA, itemB] := by
  have h1 : sortByDueDate [itemB, itemA] = [itemB, itemA] :=
    List.mergeSort_of_sorted (by decide)
  have h2 : sortByDueDate [itemA, itemB] = [itemA, itemB] :=
    List.mergeSort_of_sorted (by decide)
  refine ⟨h1, ?_, h2⟩
  rw [h1]
  decide

/-- Claim C6, amended: `sortByDueDate` returns a permutation of its input
that is sorted ascending by due instant, and it is stable: the items with any
given due instant appear in their input order.  The output is a deterministic
function of the input sequence (not of its multiset alone). -/
theorem sortByDueDate_sorted_stable (items : List ParsedTodoItem) :
    (sortByDueDate items).Pairwise (fun a b => a.dueAt ≤ b.dueAt) ∧
    (sortByDueDate items).Perm items ∧
    ∀ t : Int,
      (sortByDueDate items).filter (fun x => x.dueAt == t) =
        items.filter (fun x => x.dueAt == t) := by
  refine ⟨?_, List.mergeSort_perm items dueDateLe, ?_⟩
  · exact (List.sorted_mergeSort dueDateLe_trans dueDateLe_total items).imp
      (fun h => by simpa [dueDateLe] using h)
  · intro t
    have hsub : List.Sublist (items.filter (fun x => x.dueAt == t)) items :=
      List.filter_sublist items
    have hpw : (items.filter (fun x => x.dueAt == t)).Pairwise
        (fun a b => dueDateLe a b) := by
      apply List.pairwise_of_forall_mem_list
      intro a ha b hb
      have ha2 := (List.mem_filter.mp ha).2
      have hb2 := (List.mem_filter.mp hb).2
      simp only [beq_iff_eq] at ha2 hb2
      simp [dueDateLe, ha2, hb2]
    have hsub2 : List.Sublist (items.filter (fun x => x.dueAt == t))
        ((sortByDueDate items).filter (fun x => x.dueAt == t)) := by
      have h0 : List.Sublist (items.filter (fun x => x.dueAt == t))
          (sortByDueDate items) :=
        List.sublist_mergeSort dueDateLe_trans dueDateLe_total hpw hsub
      have h1 := h0.filter (fun x => x.dueAt == t)
      rwa [List.filter_filter, show
        (fun x : ParsedTodoItem => (x.dueAt == t) && (x.dueAt == t)) =
          (fun x : ParsedTodoItem => x.dueAt == t) from by
        funext x; cases h : x.dueAt == t <;> simp [h]] at h1
    have hperm : ((sortByDueDate items).filter
        (fun x => x.dueAt == t)).Perm (items.filter (fun x => x.dueAt == t)) :=
      (List.mergeSort_perm items dueDateLe).filter (fun x => x.dueAt == t)
    exact (hsub2.eq_of_length hperm.length_eq.symm).symm

/-- Fallback-name lookups that agree produce equal display names. -/
theorem courseNameOrFallback_congr (m1 m2 : List (String × String))
    (k : String) (h : mapLookup m1 k = mapLookup m2 k) :
    courseNameOrFallback m1 k = courseNameOrFallback m2 k := by
  unfold courseNameOrFallback
  rw [h]

/-- Claim C5, counterexample: `formatMessage` is not a pure function of its
arguments — it reads the synced course table from the database, and two runs
with identical arguments (same child id, same items, same reference date) but
different database states return different strings. -/
theorem formatMessage_db_dependence_counterexample :
    formatMessage [⟨"c1", "101", "English", true⟩] "c1" [cItem] ⟨2026, 2, 18⟩ ≠
      formatMessage [⟨"c1", "101", "French", true⟩] "c1" [cItem]
        ⟨2026, 2, 18⟩ := by
  decide

/-- Claim C5, amended: `formatMessage` is deterministic given the
previously-synced course mappings: whenever two database states resolve the
items' course ids identically, the resulting strings are equal, so the output
is fully determined by the items, the reference date, and the subject's
synced label mapping, and label resolution consults nothing beyond that
mapping. -/
theorem formatMessage_determined_by_courseMap
    (courses1 courses2 : List Course) (childId1 childId2 : String)
    (todos : List ParsedTodoItem) (d : SimpleDate)
    (h : ∀ t ∈ todos,
      mapLookup (getCourseMap courses1 childId1) t.courseId =
        mapLookup (getCourseMap courses2 childId2) t.courseId) :
    formatMessage courses1 childId1 todos d =
      formatMessage courses2 childId2 todos d := by
  unfold formatMessage
  cases h0 : (todos.length == 0) with
  | true => simp [h0]
  | false =>
    simp only [h0, Bool.false_eq_true, if_false]
    have : todos.map (todoBlock (getCourseMap courses1 childId1)) =
        todos.map (todoBlock (getCourseMap courses2 childId2)) := by
      apply List.map_congr_left
      intro t ht
      unfold todoBlock
      rw [courseNameOrFallback_congr _ _ t.courseId (h t ht)]
    rw [this]

/-- Witness for `formatMessage_determined_by_courseMap`: two different
database states (different child ids, different rows) that sync the same
mapping for course 101 give the same message. -/
theorem formatMessage_determined_by_courseMap_witness :
    formatMessage [⟨"c1", "101", "English", true⟩] "c1" [cItem] ⟨2026, 2, 18⟩ =
      formatMessage [⟨"c2", "101", "English", true⟩, ⟨"c1", "999", "X", true⟩]
        "c2" [cItem] ⟨2026, 2, 18⟩ :=
  formatMessage_determined_by_courseMap _ _ _ _ _ _ (by
    intro t ht
    rw [List.mem_singleton] at ht
    subst ht
    decide)

/-- Claim C7, counterexample: for an unresolved group identifier the group
line does not fall back to the raw identifier — it reads
`Course: Course 999`, not `Course: 999`. -/
theorem courseFallback_counterexample :
    formatMessage [] "c1" [⟨"submitting", "E", 0, "2026-02-25", "999"⟩]
        ⟨2026, 2, 18⟩ =
      "Assignments for 2026-02-18:\n\nCourse: Course 999\nAssignment: E\nType: submitting\nDue: 2026-02-25\n\n" ∧
    formatMessage [] "c1" [⟨"submitting", "E", 0, "2026-02-25", "999"⟩]
        ⟨2026, 2, 18⟩ ≠
      "Assignments for 2026-02-18:\n\nCourse: 999\nAssignment: E\nType: submitting\nDue: 2026-02-25\n\n" := by
  exact ⟨by decide, by decide⟩

/-- Claim C7, amended: the round-trip example produces exactly the claimed
string, and for an unresolved group identifier the display name falls back to
`Course ` followed by the raw identifier (so the group line reads
`Course: Course 999`, not the raw identifier alone). -/
theorem formatMessage_roundtrip_and_fallback :
    formatMessage [⟨"c1", "101", "English", true⟩] "c1"
        [⟨"submitting", "Essay on Shakespeare", 1771977540000, "2026-02-25",
          "101"⟩] ⟨2026, 2, 18⟩ =
      "Assignments for 2026-02-18:\n\nCourse: English\nAssignment: Essay on Shakespeare\nType: submitting\nDue: 2026-02-25\n\n" ∧
    ∀ (courses : List Course) (childId courseId : String),
      mapLookup (getCourseMap courses childId) courseId = none →
      courseNameOrFallback (getCourseMap courses childId) courseId =
        "Course " ++ courseId := by
  refine ⟨by decide, ?_⟩
  intro courses childId courseId h
  unfold courseNameOrFallback
  rw [h]

/-- Witness for `formatMessage_roundtrip_and_fallback`: the fallback branch
at a concrete unresolved id. -/
theorem formatMessage_roundtrip_and_fallback_witness :
    courseNameOrFallback (getCourseMap [] "c1") "999" = "Course 999" :=
  formatMessage_roundtrip_and_fallback.2 [] "c1" "999" (by decide)

/-- The closed form of `countSmsSegments`: a case split on the encoding and
the single-segment threshold. -/
theorem countSmsSegments_eq (message : String) :
    countSmsSegments message =
      if hasUnicodeChar message then
        if message.length ≤ 70 then 1
        else (message.length + 67 - 1) / 67
      else
        if message.length ≤ 160 then 1
        else (message.length + 153 - 1) / 153 := by
  unfold countSmsSegments
  cases h : hasUnicodeChar message <;> simp [h]

/-- Claim C8: the segment-count helper returns 1 when the length fits the
single-segment threshold (160 for all-ASCII bodies, 70 when any character is
non-ASCII) and otherwise the ceiling of length over the multipart threshold
(153 or 67, the `Nat` ceiling of `L / k` being `(L + k - 1) / k`); in
particular an all-ASCII 320-character body needs 3 segments and a
100-character body with one non-ASCII character needs 2. -/
theorem countSmsSegments_spec :
    (∀ message : String,
      countSmsSegments message =
        if hasUnicodeChar message then
          if message.length ≤ 70 then 1
          else (message.length + 67 - 1) / 67
        else
          if message.length ≤ 160 then 1
          else (message.length + 153 - 1) / 153) ∧
    hasUnicodeChar (String.mk (List.replicate 320 'a')) = false ∧
    (String.mk (List.replicate 320 'a')).length = 320 ∧
    countSmsSegments (String.mk (List.replicate 320 'a')) = 3 ∧
    hasUnicodeChar (String.mk ('é' :: List.replicate 99 'a')) = true ∧
    (String.mk ('é' :: List.replicate 99 'a')).length = 100 ∧
    countSmsSegments (String.mk ('é' :: List.replicate 99 'a')) = 2 := by
  exact ⟨fun message => countSmsSegments_eq message, by decide, by decide,
    by decide, by decide, by decide, by decide⟩

/-- Claim C9: with `maxLength ≥ 3`, `formatPreview` returns the message
unchanged when it fits, and otherwise a string of exactly `maxLength`
characters: the first `maxLength - 3` characters followed by `...`. -/
theorem formatPreview_spec (message : String) (maxLength : Nat)
    (h : 3 ≤ maxLength) :
    (message.length ≤ maxLength → formatPreview message maxLength = message) ∧
    (maxLength < message.length →
      (formatPreview message maxLength).length = maxLength ∧
      formatPreview message maxLength =
        String.mk (message.data.take (maxLength - 3)) ++ "...") := by
  constructor
  · intro hle
    simp [formatPreview, hle]
  · intro hgt
    have hnle : ¬ message.length ≤ maxLength := by omega
    refine ⟨?_, by unfold formatPreview; rw [if_neg hnle]⟩
    have hdata : message.data.length = message.length := rfl
    simp only [formatPreview, hnle, if_false]
    rw [String.length_append]
    have h1 : (String.mk (message.data.take (maxLength - 3))).length =
        min (maxLength - 3) message.data.length := by
      show (message.data.take (maxLength - 3)).length = _
      rw [List.length_take]
    rw [h1]
    have h2 : ("..." : String).length = 3 := by decide
    rw [h2]
    omega

/-- Witness for `formatPreview_spec`: the truncation branch at a concrete
input. -/
theorem formatPreview_spec_witness :
    5 < ("hello world" : String).length ∧
      (formatPreview "hello world" 5).length = 5 :=
  ⟨by decide, ((formatPreview_spec "hello world" 5 (by decide)).2
    (by decide)).1⟩

/-- Claim C10: `validateMessage` reports the segment count of the message,
and is valid exactly when the trimmed message is non-empty and the segment
count does not exceed the bound; the segment count of any string, the empty
string included, is at least 1. -/
theorem validateMessage_spec (message : String) (maxSegments : Nat) :
    (validateMessage message maxSegments).segments =
      countSmsSegments message ∧
    ((validateMessage message maxSegments).valid = true ↔
      (trimString message).length ≠ 0 ∧
        countSmsSegments message ≤ maxSegments) ∧
    1 ≤ countSmsSegments message := by
  refine ⟨rfl, ?_, ?_⟩
  · by_cases h1 : (trimString message).length = 0 <;>
      by_cases h2 : maxSegments < countSmsSegments message
    all_goals simp [validateMessage, h1, h2]
    all_goals omega
  · rw [countSmsSegments_eq message]
    split <;> split
    · exact Nat.le_refl 1
    · rw [Nat.one_le_div_iff (by omega)]
      omega
    · exact Nat.le_refl 1
    · rw [Nat.one_le_div_iff (by omega)]
      omega

/-- After the remove-then-add sequence's remove phase, no job under the key
remains. -/
theorem filter_jobId_cleared (q : QueueState) (id : String) :
    ((match getJob q id with
      | some _ => removeJob q id
      | none => q).jobs.filter (fun j : QueueJob => j.jobId == id)) = [] := by
  cases hg : getJob q id with
  | none =>
    show q.jobs.filter (fun j => j.jobId == id) = []
    apply List.filter_eq_nil_iff.mpr
    intro j hj
    exact List.find?_eq_none.mp hg j hj
  | some j0 =>
    show (q.jobs.filter (fun j => !(j.jobId == id))).filter
      (fun j => j.jobId == id) = []
    rw [List.filter_filter]
    apply List.filter_eq_nil_iff.mpr
    intro j hj
    cases h : (j.jobId == id) <;> simp [h]

/-- A successful install leaves exactly one trigger under the pair's key. -/
theorem triggerCount_after_install (parents : List Parent) (q q2 : QueueState)
    (parentId childId : String)
    (h : scheduleDailySmsForPair parents q parentId childId = .ok q2) :
    triggerCount q2 parentId childId = 1 := by
  cases hfind : parents.find? (fun p => p.id == parentId) with
  | none =>
    rw [scheduleDailySmsForPair, hfind] at h
    exact absurd h (by simp)
  | some parent =>
    cases hpref : parent.preferences with
    | none =>
      simp only [scheduleDailySmsForPair, hfind, hpref] at h
      exact absurd h (by simp)
    | some prefs =>
      simp only [scheduleDailySmsForPair, hfind, hpref,
        Except.ok.injEq] at h
      subst h
      unfold triggerCount addJob
      rw [List.filter_append, filter_jobId_cleared]
      simp [smsJobId]

/-- Claim C1: installing the schedule for the same (owner, subject) pair
twice in succession leaves exactly one installed trigger under the
deterministic key derived from the pair — indeed already after each single
successful install exactly one trigger exists, because install first removes
any job under that key. -/
theorem install_twice_single_trigger (parents : List Parent)
    (q q1 q2 : QueueState) (parentId childId : String)
    (h1 : scheduleDailySmsForPair parents q parentId childId = .ok q1)
    (h2 : scheduleDailySmsForPair parents q1 parentId childId = .ok q2) :
    triggerCount q1 parentId childId = 1 ∧
      triggerCount q2 parentId childId = 1 :=
  ⟨triggerCount_after_install parents q q1 parentId childId h1,
    triggerCount_after_install parents q1 q2 parentId childId h2⟩

/-- Witness for `install_twice_single_trigger`: both installs at a concrete
parent and empty queue (both hypotheses discharged by evaluation). -/
theorem install_twice_single_trigger_witness :
    triggerCount
      ⟨[⟨"sms-p-c", "send-sms", "p", "c", "00 15 * * 1-5", "UTC"⟩]⟩
      "p" "c" = 1 :=
  (install_twice_single_trigger [wParent] ⟨[]⟩
    ⟨[⟨"sms-p-c", "send-sms", "p", "c", "00 15 * * 1-5", "UTC"⟩]⟩
    ⟨[⟨"sms-p-c", "send-sms", "p", "c", "00 15 * * 1-5", "UTC"⟩]⟩
    "p" "c" (by rfl) (by rfl)).2

/-- Claim C2, counterexample: a firing whose first attempt fails with a
retryable `NetworkError` *after* the parent send already succeeded (the
child send fails) and whose retry then succeeds leaves TWO `sent` records
for the parent recipient, because the retry re-runs the whole job and
re-sends to the parent. -/
theorem retry_duplicate_sent_counterexample :
    isOkB (processSmsJob wDb ⟨.ok [], .ok "SID1", .error .networkError⟩
      wDate "p" "c" []).2 = false ∧
    (runJobWithRetries wDb wDate "p" "c"
      [⟨.ok [], .ok "SID1", .error .networkError⟩,
        ⟨.ok [], .ok "SID2", .ok "SID3"⟩] []).2 = true ∧
    countByType (runJobWithRetries wDb wDate "p" "c"
      [⟨.ok [], .ok "SID1", .error .networkError⟩,
        ⟨.ok [], .ok "SID2", .ok "SID3"⟩] []).1 "parent" "sent" = 2 ∧
    countByType (runJobWithRetries wDb wDate "p" "c"
      [⟨.ok [], .ok "SID1", .error .networkError⟩,
        ⟨.ok [], .ok "SID2", .ok "SID3"⟩] []).1 "parent" "sent" ≠ 1 := by
  refine ⟨by decide, by decide, by decide, by decide⟩

/-- Claim C3, counterexample: three attempts that all fail with a retryable
`RateLimitError` leave THREE `failed` records for the owner recipient (one
per attempt), not exactly one. -/
theorem exhausted_retries_counterexample :
    (runJobWithRetries wDb wDate "p" "c"
      [⟨.error .rateLimitError, .ok "X", .ok "X"⟩,
        ⟨.error .rateLimitError, .ok "X", .ok "X"⟩,
        ⟨.error .rateLimitError, .ok "X", .ok "X"⟩] []).2 = false ∧
    countByType (runJobWithRetries wDb wDate "p" "c"
      [⟨.error .rateLimitError, .ok "X", .ok "X"⟩,
        ⟨.error .rateLimitError, .ok "X", .ok "X"⟩,
        ⟨.error .rateLimitError, .ok "X", .ok "X"⟩] []).1
      "parent" "failed" = 3 ∧
    countByType (runJobWithRetries wDb wDate "p" "c"
      [⟨.error .rateLimitError, .ok "X", .ok "X"⟩,
        ⟨.error .rateLimitError, .ok "X", .ok "X"⟩,
        ⟨.error .rateLimitError, .ok "X", .ok "X"⟩] []).1
      "parent" "failed" ≠ 1 := by
  refine ⟨by decide, by decide, by decide⟩

/-- Claim C4, counterexample: a firing with two resolved recipients where the
child send raises a non-retryable `InvalidAddressError` and the parent send
succeeds does NOT record one `sent` and one `failed` and is reported as a
total failure: the error is rethrown, Bull retries the whole job (even for
the non-retryable error), the parent is re-sent on every attempt (3 `sent`
records), every `failed` record is attributed to the parent recipient, the
child gets no record at all, and the job ends reported as failed. -/
theorem per_recipient_isolation_counterexample :
    (runJobWithRetries wDb wDate "p" "c"
      [⟨.ok [], .ok "SID", .error .invalidAddress⟩,
        ⟨.ok [], .ok "SID", .error .invalidAddress⟩,
        ⟨.ok [], .ok "SID", .error .invalidAddress⟩] []).2 = false ∧
    countByType (runJobWithRetries wDb wDate "p" "c"
      [⟨.ok [], .ok "SID", .error .invalidAddress⟩,
        ⟨.ok [], .ok "SID", .error .invalidAddress⟩,
        ⟨.ok [], .ok "SID", .error .invalidAddress⟩] []).1
      "parent" "sent" = 3 ∧
    countByType (runJobWithRetries wDb wDate "p" "c"
      [⟨.ok [], .ok "SID", .error .invalidAddress⟩,
        ⟨.ok [], .ok "SID", .error .invalidAddress⟩,
        ⟨.ok [], .ok "SID", .error .invalidAddress⟩] []).1
      "parent" "failed" = 3 ∧
    countByType (runJobWithRetries wDb wDate "p" "c"
      [⟨.ok [], .ok "SID", .error .invalidAddress⟩,
        ⟨.ok [], .ok "SID", .error .invalidAddress⟩,
        ⟨.ok [], .ok "SID", .error .invalidAddress⟩] []).1
      "child" "sent" = 0 ∧
    countByType (runJobWithRetries wDb wDate "p" "c"
      [⟨.ok [], .ok "SID", .error .invalidAddress⟩,
        ⟨.ok [], .ok "SID", .error .invalidAddress⟩,
        ⟨.ok [], .ok "SID", .error .invalidAddress⟩] []).1
      "child" "failed" = 0 := by
  refine ⟨by decide, by decide, by decide, by decide, by decide⟩

/-- Claim C2, amended: when the retryable failure of the first attempt occurs
*before any send* (during the Canvas fetch), a successful retry leaves
exactly one `sent` record per recipient; the failed first attempt contributes
exactly one `failed` record for the owner recipient and no `sent` record. -/
theorem retry_after_prefetch_failure_single_success
    (db : WorkerDb) (date : SimpleDate) (parentId childId : String)
    (e : FetchError) (x y : Except SendError String)
    (parent : Parent) (child : Child) (prefs : Preference)
    (phone childPhone sid childSid : String) (todos : List ParsedTodoItem)
    (hpar : db.parents.find? (fun p => p.id == parentId) = some parent)
    (hphone : parent.phoneNumber = some phone)
    (hchild : db.children.find? (fun c => c.id == childId) = some child)
    (hcphone : child.phoneNumber = some childPhone)
    (hpref : db.preferences.find? (fun pr => pr.parentId == parentId) =
      some prefs)
    (hinc : prefs.includeChildInSms = true)
    (hvalid : (validateMessage
      (formatMessage db.courses childId todos date) 5).valid = true) :
    (runJobWithRetries db date parentId childId
      [⟨.error e, x, y⟩, ⟨.ok todos, .ok sid, .ok childSid⟩] []).2 = true ∧
    countByType (runJobWithRetries db date parentId childId
      [⟨.error e, x, y⟩, ⟨.ok todos, .ok sid, .ok childSid⟩] []).1
      "parent" "sent" = 1 ∧
    countByType (runJobWithRetries db date parentId childId
      [⟨.error e, x, y⟩, ⟨.ok todos, .ok sid, .ok childSid⟩] []).1
      "child" "sent" = 1 ∧
    countByType (runJobWithRetries db date parentId childId
      [⟨.error e, x, y⟩, ⟨.ok todos, .ok sid, .ok childSid⟩] []).1
      "parent" "failed" = 1 := by
  refine ⟨?_, ?_, ?_, ?_⟩ <;>
    simp [runJobWithRetries, processSmsJob, sendToChildStep, logFailure,
      logMessage, countByType, hpar, hphone, hchild, hcphone, hpref, hinc,
      hvalid]

/-- Witness for `retry_after_prefetch_failure_single_success` at the concrete
fixture database. -/
theorem retry_after_prefetch_failure_single_success_witness :
    countByType (runJobWithRetries wDb wDate "p" "c"
      [⟨.error .networkError, .ok "A", .ok "B"⟩,
        ⟨.ok [], .ok "SID2", .ok "SID3"⟩] []).1 "parent" "sent" = 1 :=
  (retry_after_prefetch_failure_single_success wDb wDate "p" "c"
    .networkError (.ok "A") (.ok "B") wParent wChild wPref "+1111" "+2222"
    "SID2" "SID3" [] (by rfl) (by rfl) (by rfl) (by rfl) (by rfl) (by rfl)
    (by decide)).2.1

/-- Claim C3, amended: when all three attempts fail with retryable errors
during the fetch, the run ends unsuccessfully and the Occurrence Store holds
exactly one `failed` record for the owner recipient *per attempt* — three in
total — and no `sent` record. -/
theorem exhausted_retries_one_failed_per_attempt
    (db : WorkerDb) (date : SimpleDate) (parentId childId : String)
    (parent : Parent) (phone : String)
    (e1 e2 e3 : FetchError) (x1 y1 x2 y2 x3 y3 : Except SendError String)
    (hpar : db.parents.find? (fun p => p.id == parentId) = some parent)
    (hphone : parent.phoneNumber = some phone) :
    (runJobWithRetries db date parentId childId
      [⟨.error e1, x1, y1⟩, ⟨.error e2, x2, y2⟩, ⟨.error e3, x3, y3⟩]
      []).2 = false ∧
    countByType (runJobWithRetries db date parentId childId
      [⟨.error e1, x1, y1⟩, ⟨.error e2, x2, y2⟩, ⟨.error e3, x3, y3⟩]
      []).1 "parent" "failed" = 3 ∧
    countByType (runJobWithRetries db date parentId childId
      [⟨.error e1, x1, y1⟩, ⟨.error e2, x2, y2⟩, ⟨.error e3, x3, y3⟩]
      []).1 "parent" "sent" = 0 := by
  refine ⟨?_, ?_, ?_⟩ <;>
    simp [runJobWithRetries, processSmsJob, logFailure, logMessage,
      countByType, hpar, hphone]

/-- Witness for `exhausted_retries_one_failed_per_attempt` at the concrete
fixture database. -/
theorem exhausted_retries_one_failed_per_attempt_witness :
    countByType (runJobWithRetries wDb wDate "p" "c"
      [⟨.error .rateLimitError, .ok "A", .ok "B"⟩,
        ⟨.error .rateLimitError, .ok "A", .ok "B"⟩,
        ⟨.error .rateLimitError, .ok "A", .ok "B"⟩] []).1
      "parent" "failed" = 3 :=
  (exhausted_retries_one_failed_per_attempt wDb wDate "p" "c" wParent "+1111"
    .rateLimitError .rateLimitError .rateLimitError
    (.ok "A") (.ok "B") (.ok "A") (.ok "B") (.ok "A") (.ok "B")
    (by rfl) (by rfl)).2.1

/-- Claim C4, amended: within one attempt where the owner's send succeeds and
the child's send raises `InvalidAddressError`, the owner's `sent` record is
written and never rolled back, exactly one `failed` record is appended but it
is attributed to the owner recipient (the child gets no record), and the
attempt is rethrown as an error — the firing is reported as a failure and
handed to Bull's retry mechanism rather than completing. -/
theorem child_send_failure_not_isolated
    (db : WorkerDb) (date : SimpleDate) (parentId childId : String)
    (parent : Parent) (child : Child) (prefs : Preference)
    (phone childPhone sid : String) (todos : List ParsedTodoItem)
    (e : SendError) (store : List MessageRecord)
    (hpar : db.parents.find? (fun p => p.id == parentId) = some parent)
    (hphone : parent.phoneNumber = some phone)
    (hchild : db.children.find? (fun c => c.id == childId) = some child)
    (hcphone : child.phoneNumber = some childPhone)
    (hpref : db.preferences.find? (fun pr => pr.parentId == parentId) =
      some prefs)
    (hinc : prefs.includeChildInSms = true)
    (hvalid : (validateMessage
      (formatMessage db.courses childId todos date) 5).valid = true) :
    processSmsJob db ⟨.ok todos, .ok sid, .error e⟩ date parentId childId
        store =
      (store ++
        [⟨childId, some parentId,
          formatMessage db.courses childId todos date, phone, "parent",
          some sid, "sent", todos.length⟩,
         ⟨childId, some parentId, "", phone, "parent", none, "failed", 0⟩],
        .error (.sendFailed e)) := by
  simp [processSmsJob, sendToChildStep, logFailure, logMessage,
    hpar, hphone, hchild, hcphone, hpref, hinc, hvalid]

/-- Witness for `child_send_failure_not_isolated` at the concrete fixture
database. -/
theorem child_send_failure_not_isolated_witness :
    processSmsJob wDb ⟨.ok [], .ok "SID", .error .invalidAddress⟩ wDate
        "p" "c" [] =
      ([⟨"c", some "p", formatMessage [] "c" [] wDate, "+1111", "parent",
          some "SID", "sent", 0⟩,
        ⟨"c", some "p", "", "+1111", "parent", none, "failed", 0⟩],
        .error (.sendFailed .invalidAddress)) :=
  child_send_failure_not_isolated wDb wDate "p" "c" wParent wChild wPref
    "+1111" "+2222" "SID" [] .invalidAddress []
    (by rfl) (by rfl) (by rfl) (by rfl) (by rfl) (by rfl) (by decide)

example :
    countByType (runJobWithRetries wDb wDate "p" "c"
      [⟨.error .networkError, .ok "A", .ok "B"⟩,
        ⟨.ok [], .ok "SID2", .ok "SID3"⟩] []).1 "parent" "sent" = 1 := by
  decide

example :
    processSmsJob wDb ⟨.ok [], .ok "SID", .error .invalidAddress⟩ wDate
        "p" "c" [] =
      ([⟨"c", some "p", formatMessage [] "c" [] wDate, "+1111", "parent",
          some "SID", "sent", 0⟩,
        ⟨"c", some "p", "", "+1111", "parent", none, "failed", 0⟩],
        .error (.sendFailed .invalidAddress)) := by
  rfl
